import Mathlib

/-!
Verification of the block-space allocation state machine from
src/apps/src/lib/node/ledger/shell/block_space_alloc/states.rs.

The fused allocator, the phase marker types and the transition traits are
embedded directly from states.rs. The surrounding module (the AllocFailure
type, the Space Tracker in tracker.rs, the BlockSpaceAllocator struct and
its per-phase try_alloc and transition impls) is not part of the available
sources, so those definitions are modelled from the specification and are
marked as such in their doc comments.

Transactions are byte strings; only their length matters to allocation, and
they are embedded as lists of naturals.
-/

/-- Modelled from the spec: the allocation failure type, declared in the
parent module block_space_alloc which is absent from the sources. Per the
spec (sections 4.2 and 7), the single error kind is Rejected, carrying the
residual space at the time of rejection. -/
inductive AllocFailure where
  | Rejected (bin_space_left : Nat)
deriving DecidableEq, Repr

/-- Modelled from the spec: the Space Tracker of tracker.rs, absent from the
sources. It owns a byte capacity and a running consumed count for one
phase. -/
structure SpaceTracker where
  capacity : Nat
  used : Nat
deriving DecidableEq, Repr

/-- Remaining space of a tracker: capacity minus used. -/
def SpaceTracker.remaining (t : SpaceTracker) : Nat :=
  t.capacity - t.used

/-- Modelled from the spec: the Space Tracker admission contract of section
4.1 (the spec names it try_admit). Accept iff used + len is at most
capacity, in which case used grows by len; otherwise reject, leaving the
tracker unchanged and reporting the remaining space. -/
def SpaceTracker.try_dump (t : SpaceTracker) (len : Nat) :
    Except AllocFailure Unit × SpaceTracker :=
  if t.used + len ≤ t.capacity then
    (Except.ok (), { t with used := t.used + len })
  else
    (Except.error (AllocFailure.Rejected t.remaining), t)

/-- The mode of the third phase: whether DKG encrypted transactions may be
included in the block proposal. Embeds the marker types WithEncryptedTxs
and WithoutEncryptedTxs of states.rs. -/
inductive Mode where
  | WithEncryptedTxs
  | WithoutEncryptedTxs
deriving DecidableEq, Repr

/-- The phase markers of states.rs, embedded as one inductive type:
BuildingDecryptedTxBatch, BuildingProtocolTxBatch,
BuildingEncryptedTxBatch (parameterized by a mode) and
FillingRemainingSpace. -/
inductive Phase where
  | BuildingDecryptedTxBatch
  | BuildingProtocolTxBatch
  | BuildingEncryptedTxBatch (mode : Mode)
  | FillingRemainingSpace
deriving DecidableEq, Repr

/-- Modelled from the spec: the BlockSpaceAllocator struct, declared in the
parent module which is absent from the sources. Per the spec (section 3) it
is generic over the current phase marker and wraps one Space Tracker. -/
structure BlockSpaceAllocator (S : Phase) where
  tracker : SpaceTracker
deriving DecidableEq, Repr

/-- Modelled from the spec: the per-phase TryAlloc impls for
BlockSpaceAllocator (decrypted_txs.rs, protocol_txs.rs, encrypted_txs.rs,
remaining_txs.rs), absent from the sources. Per the spec (section 4.2) each
phase delegates to the embedded Space Tracker using the byte length of the
transaction; per sections 4.2 and 8, the third phase in the without mode
never admits a transaction, even if budget remains. -/
def BlockSpaceAllocator.try_alloc {S : Phase} (a : BlockSpaceAllocator S)
    (tx : List Nat) : Except AllocFailure Unit × BlockSpaceAllocator S :=
  if S = Phase.BuildingEncryptedTxBatch Mode.WithoutEncryptedTxs then
    (Except.error (AllocFailure.Rejected 0), a)
  else
    let p := SpaceTracker.try_dump a.tracker tx.length
    (p.1, { tracker := p.2 })

/-- Runs a sequence of try_alloc calls against a block-space allocator,
threading the state and discarding the per-call results. -/
def BlockSpaceAllocator.run {S : Phase} :
    BlockSpaceAllocator S → List (List Nat) → BlockSpaceAllocator S
  | a, [] => a
  | a, tx :: l => BlockSpaceAllocator.run (a.try_alloc tx).2 l

/-- Modelled from the spec: the capacity carry-forward of a phase
transition (section 3): the next tracker's capacity is the next phase's
configured budget plus the remaining space of the previous phase's
tracker, with the consumed count starting at zero. -/
def carryForwardTracker (budget : Nat) (t : SpaceTracker) : SpaceTracker :=
  { capacity := budget + t.remaining, used := 0 }

/-- Modelled from the spec: the NextStateImpl impl of decrypted_txs.rs,
absent from the sources; the first phase transitions to the protocol-tx
phase, carrying unused capacity forward. -/
def BlockSpaceAllocator.next_state_decrypted
    (a : BlockSpaceAllocator Phase.BuildingDecryptedTxBatch) (budget : Nat) :
    BlockSpaceAllocator Phase.BuildingProtocolTxBatch :=
  { tracker := carryForwardTracker budget a.tracker }

/-- Modelled from the spec: the NextStateImpl (WithEncryptedTxs) impl of
protocol_txs.rs, absent from the sources; the second phase transitions to
the encrypted-tx phase in the with mode, carrying unused capacity
forward. -/
def BlockSpaceAllocator.next_state_with_encrypted_txs
    (a : BlockSpaceAllocator Phase.BuildingProtocolTxBatch) (budget : Nat) :
    BlockSpaceAllocator (Phase.BuildingEncryptedTxBatch Mode.WithEncryptedTxs) :=
  { tracker := carryForwardTracker budget a.tracker }

/-- Modelled from the spec: the NextStateImpl (WithoutEncryptedTxs) impl of
protocol_txs.rs, absent from the sources; the second phase transitions to
the encrypted-tx phase in the without mode, carrying unused capacity
forward. -/
def BlockSpaceAllocator.next_state_without_encrypted_txs
    (a : BlockSpaceAllocator Phase.BuildingProtocolTxBatch) (budget : Nat) :
    BlockSpaceAllocator (Phase.BuildingEncryptedTxBatch Mode.WithoutEncryptedTxs) :=
  { tracker := carryForwardTracker budget a.tracker }

/-- Modelled from the spec: the NextStateImpl impl of encrypted_txs.rs,
absent from the sources; the third phase, in either mode, transitions to
the terminal fill-remaining-space phase, carrying unused capacity
forward. -/
def BlockSpaceAllocator.next_state_encrypted {m : Mode}
    (a : BlockSpaceAllocator (Phase.BuildingEncryptedTxBatch m)) (budget : Nat) :
    BlockSpaceAllocator Phase.FillingRemainingSpace :=
  { tracker := carryForwardTracker budget a.tracker }

/-- The FusedBlockSpaceAllocator of states.rs: a BlockSpaceAllocator
together with a boolean flag recording the failure status of some
allocation. -/
structure FusedBlockSpaceAllocator (S : Phase) where
  alloc : BlockSpaceAllocator S
  ran_out_of_space : Bool
deriving DecidableEq, Repr

/-- has_run_out_of_space of states.rs: check if the fused allocator still
has any bin space left. -/
def FusedBlockSpaceAllocator.has_run_out_of_space {S : Phase}
    (f : FusedBlockSpaceAllocator S) : Bool :=
  f.ran_out_of_space

/-- fuse of states.rs: wrap a BlockSpaceAllocator into a
FusedBlockSpaceAllocator, with the flag initially false. -/
def BlockSpaceAllocator.fuse {S : Phase} (a : BlockSpaceAllocator S) :
    FusedBlockSpaceAllocator S :=
  { alloc := a, ran_out_of_space := false }

/-- The TryAlloc impl for FusedBlockSpaceAllocator of states.rs: if the
flag is set, return Rejected with zero space left at once; otherwise
delegate to the inner allocator and, via map_err, set the flag whenever the
error matches Rejected. -/
def FusedBlockSpaceAllocator.try_alloc {S : Phase}
    (f : FusedBlockSpaceAllocator S) (tx : List Nat) :
    Except AllocFailure Unit × FusedBlockSpaceAllocator S :=
  if f.ran_out_of_space then
    (Except.error (AllocFailure.Rejected 0), f)
  else
    match f.alloc.try_alloc tx with
    | (Except.ok _, a) =>
        (Except.ok (), { alloc := a, ran_out_of_space := f.ran_out_of_space })
    | (Except.error e, a) =>
        (Except.error e,
          { alloc := a,
            ran_out_of_space :=
              match e with
              | AllocFailure.Rejected _ => true })

/-- Runs a sequence of try_alloc calls against a fused allocator, threading
the state and discarding the per-call results. -/
def FusedBlockSpaceAllocator.run {S : Phase} :
    FusedBlockSpaceAllocator S → List (List Nat) → FusedBlockSpaceAllocator S
  | f, [] => f
  | f, tx :: l => FusedBlockSpaceAllocator.run (f.try_alloc tx).2 l

/-- The NextStateImpl impl for FusedBlockSpaceAllocator of states.rs: the
transition delegates to the inner allocator's transition, discarding the
wrapper. The inner transition is passed as a function, standing for the
inner NextStateImpl instance the generic Rust impl requires. -/
def FusedBlockSpaceAllocator.next_state_impl {S : Phase} {N : Type}
    (step : BlockSpaceAllocator S → N) (f : FusedBlockSpaceAllocator S) : N :=
  step f.alloc

/-- The EncryptedTxBatchAllocator enum of states.rs: a phase-3 allocator
tagged with whichever mode was selected. -/
inductive EncryptedTxBatchAllocator where
  | WithEncryptedTxs
      (alloc :
        BlockSpaceAllocator (Phase.BuildingEncryptedTxBatch Mode.WithEncryptedTxs))
  | WithoutEncryptedTxs
      (alloc :
        BlockSpaceAllocator
          (Phase.BuildingEncryptedTxBatch Mode.WithoutEncryptedTxs))

/-! ## Helper lemmas -/

/-- When the flag is set, the fused allocator rejects at once with zero
space left, returning its state unchanged. -/
lemma fused_try_alloc_of_exhausted {S : Phase} (f : FusedBlockSpaceAllocator S)
    (tx : List Nat) (h : f.ran_out_of_space = true) :
    f.try_alloc tx = (Except.error (AllocFailure.Rejected 0), f) := by
  simp [FusedBlockSpaceAllocator.try_alloc, h]

/-- The phase-3 allocator in the without mode rejects every transaction,
leaving its state unchanged. -/
lemma without_mode_try_alloc
    (a : BlockSpaceAllocator
      (Phase.BuildingEncryptedTxBatch Mode.WithoutEncryptedTxs))
    (tx : List Nat) :
    a.try_alloc tx = (Except.error (AllocFailure.Rejected 0), a) := by
  simp [BlockSpaceAllocator.try_alloc]

/-- Every allocation result is either a success or a rejection carrying
some residual space. -/
lemma except_alloc_cases (r : Except AllocFailure Unit) :
    r = Except.ok () ∨ ∃ n, r = Except.error (AllocFailure.Rejected n) := by
  match r with
  | Except.ok () => exact Or.inl rfl
  | Except.error (AllocFailure.Rejected n) => exact Or.inr ⟨n, rfl⟩

/-- One try_alloc call preserves the tracker's capacity, never decreases
its consumed count, and keeps the consumed count within capacity. -/
lemma try_alloc_tracker_step {S : Phase} (a : BlockSpaceAllocator S)
    (tx : List Nat) :
    ((a.try_alloc tx).2).tracker.capacity = a.tracker.capacity ∧
    a.tracker.used ≤ ((a.try_alloc tx).2).tracker.used ∧
    (a.tracker.used ≤ a.tracker.capacity →
      ((a.try_alloc tx).2).tracker.used ≤ a.tracker.capacity) := by
  by_cases hS : S = Phase.BuildingEncryptedTxBatch Mode.WithoutEncryptedTxs
  · simp [BlockSpaceAllocator.try_alloc, hS]
  · by_cases hlen : a.tracker.used + tx.length ≤ a.tracker.capacity
    · simp [BlockSpaceAllocator.try_alloc, SpaceTracker.try_dump, hS, hlen]
    · simp [BlockSpaceAllocator.try_alloc, SpaceTracker.try_dump, hS, hlen]

/-! ## Claim theorems -/

/-- Claim C1: for a fused allocator whose flag is false, when the delegated
inner try_alloc returns Rejected with residual space n, the fused call
returns that same rejection, with its true residual space n, and sets the
flag to true in the returned state. -/
theorem fused_first_rejection_passes_through {S : Phase}
    (f : FusedBlockSpaceAllocator S) (tx : List Nat) (n : Nat)
    (a' : BlockSpaceAllocator S)
    (hf : f.ran_out_of_space = false)
    (hinner : f.alloc.try_alloc tx =
      (Except.error (AllocFailure.Rejected n), a')) :
    f.try_alloc tx =
      (Except.error (AllocFailure.Rejected n),
        { alloc := a', ran_out_of_space := true }) := by
  simp [FusedBlockSpaceAllocator.try_alloc, hf, hinner]

/-- Witness for C1: the spec scenario, a fresh fused allocator over a
tracker with 10 bytes remaining and a 15-byte transaction; the call
returns Rejected with 10 bytes left and sets the flag. -/
theorem fused_first_rejection_passes_through_witness :
    FusedBlockSpaceAllocator.try_alloc (S := Phase.BuildingDecryptedTxBatch)
        { alloc := { tracker := { capacity := 10, used := 0 } },
          ran_out_of_space := false }
        (List.replicate 15 0) =
      (Except.error (AllocFailure.Rejected 10),
        { alloc := { tracker := { capacity := 10, used := 0 } },
          ran_out_of_space := true }) :=
  fused_first_rejection_passes_through
    { alloc := { tracker := { capacity := 10, used := 0 } },
      ran_out_of_space := false }
    (List.replicate 15 0) 10
    { tracker := { capacity := 10, used := 0 } } rfl rfl

/-- Claim C2: for a fused allocator whose flag is true, every try_alloc
call, whatever the transaction, returns Rejected with zero space left and
leaves the whole state, inner allocator included, unchanged. -/
theorem fused_exhausted_rejects_zero {S : Phase}
    (f : FusedBlockSpaceAllocator S) (tx : List Nat)
    (h : f.ran_out_of_space = true) :
    f.try_alloc tx = (Except.error (AllocFailure.Rejected 0), f) :=
  fused_try_alloc_of_exhausted f tx h

/-- Witness for C2: an exhausted fused allocator over a tracker with space
remaining still rejects a 1-byte transaction with zero space left,
unchanged. -/
theorem fused_exhausted_rejects_zero_witness :
    FusedBlockSpaceAllocator.try_alloc (S := Phase.BuildingDecryptedTxBatch)
        { alloc := { tracker := { capacity := 10, used := 0 } },
          ran_out_of_space := true }
        [0] =
      (Except.error (AllocFailure.Rejected 0),
        { alloc := { tracker := { capacity := 10, used := 0 } },
          ran_out_of_space := true }) :=
  fused_exhausted_rejects_zero
    { alloc := { tracker := { capacity := 10, used := 0 } },
      ran_out_of_space := true }
    [0] rfl

/-- Claim C3: the flag is sticky; once it is true, it stays true after any
further sequence of try_alloc calls, as observed through
has_run_out_of_space (itself a pure observer that never mutates the
state). -/
theorem fused_exhaustion_sticky {S : Phase} (f : FusedBlockSpaceAllocator S)
    (l : List (List Nat)) (h : f.ran_out_of_space = true) :
    (FusedBlockSpaceAllocator.run f l).has_run_out_of_space = true := by
  induction l generalizing f with
  | nil => exact h
  | cons tx l ih =>
      rw [FusedBlockSpaceAllocator.run, fused_try_alloc_of_exhausted f tx h]
      exact ih f h

/-- Witness for C3: an exhausted fused allocator stays exhausted after two
further try_alloc calls. -/
theorem fused_exhaustion_sticky_witness :
    (FusedBlockSpaceAllocator.run (S := Phase.BuildingProtocolTxBatch)
        { alloc := { tracker := { capacity := 3, used := 0 } },
          ran_out_of_space := true }
        [[0], [1, 2]]).has_run_out_of_space = true :=
  fused_exhaustion_sticky
    { alloc := { tracker := { capacity := 3, used := 0 } },
      ran_out_of_space := true }
    [[0], [1, 2]] rfl

/-- Claim C4: the Space Tracker admission rule; accept exactly when
used + len is within capacity, consuming len, and reject exactly
otherwise, unchanged and reporting capacity minus used. -/
theorem tracker_admission_spec (t : SpaceTracker) (len : Nat) :
    (t.used + len ≤ t.capacity →
      SpaceTracker.try_dump t len =
        (Except.ok (), { capacity := t.capacity, used := t.used + len })) ∧
    (t.capacity < t.used + len →
      SpaceTracker.try_dump t len =
        (Except.error (AllocFailure.Rejected (t.capacity - t.used)), t)) := by
  constructor
  · intro h
    simp [SpaceTracker.try_dump, h]
  · intro h
    have h' : ¬ t.used + len ≤ t.capacity := by omega
    simp [SpaceTracker.try_dump, SpaceTracker.remaining, h']

/-- Witness for C4: the spec scenario; a tracker with capacity 200 and 130
used rejects a 90-byte candidate with 70 bytes left, unchanged. -/
theorem tracker_admission_spec_witness :
    SpaceTracker.try_dump { capacity := 200, used := 130 } 90 =
      (Except.error (AllocFailure.Rejected 70),
        { capacity := 200, used := 130 }) :=
  (tracker_admission_spec { capacity := 200, used := 130 } 90).2 (by decide)

/-- Claim C5: over any sequence of try_alloc calls, an allocator whose
tracker starts within budget keeps used at most capacity after every call,
and used never decreases. -/
theorem alloc_budget_invariant {S : Phase} (a : BlockSpaceAllocator S)
    (l : List (List Nat)) (h : a.tracker.used ≤ a.tracker.capacity) :
    (BlockSpaceAllocator.run a l).tracker.used ≤
        (BlockSpaceAllocator.run a l).tracker.capacity ∧
    a.tracker.used ≤ (BlockSpaceAllocator.run a l).tracker.used := by
  induction l generalizing a with
  | nil => exact ⟨h, le_rfl⟩
  | cons tx l ih =>
      obtain ⟨hcap, hmono, hinv⟩ := try_alloc_tracker_step a tx
      rw [BlockSpaceAllocator.run]
      obtain ⟨h1, h2⟩ := ih (a.try_alloc tx).2 (by rw [hcap]; exact hinv h)
      exact ⟨h1, le_trans hmono h2⟩

/-- Witness for C5: the spec scenario; starting from a fresh 200-byte
phase budget, admitting 50 and 80 bytes and attempting 90 keeps used
within capacity and non-decreasing. -/
theorem alloc_budget_invariant_witness :
    (BlockSpaceAllocator.run (S := Phase.BuildingDecryptedTxBatch)
        { tracker := { capacity := 200, used := 0 } }
        [List.replicate 50 0, List.replicate 80 0,
          List.replicate 90 0]).tracker.used ≤
      (BlockSpaceAllocator.run (S := Phase.BuildingDecryptedTxBatch)
        { tracker := { capacity := 200, used := 0 } }
        [List.replicate 50 0, List.replicate 80 0,
          List.replicate 90 0]).tracker.capacity ∧
    0 ≤ (BlockSpaceAllocator.run (S := Phase.BuildingDecryptedTxBatch)
        { tracker := { capacity := 200, used := 0 } }
        [List.replicate 50 0, List.replicate 80 0,
          List.replicate 90 0]).tracker.used :=
  alloc_budget_invariant { tracker := { capacity := 200, used := 0 } }
    [List.replicate 50 0, List.replicate 80 0, List.replicate 90 0]
    (by decide)

/-- Claim C6: every phase transition's new capacity is the next phase's
configured budget plus the unused remainder of the previous phase, with
the new consumed count starting at zero, so no bytes are gained or lost. -/
theorem transition_capacity_conservation (budget : Nat)
    (a : BlockSpaceAllocator Phase.BuildingDecryptedTxBatch)
    (b : BlockSpaceAllocator Phase.BuildingProtocolTxBatch)
    {m : Mode} (c : BlockSpaceAllocator (Phase.BuildingEncryptedTxBatch m)) :
    ((a.next_state_decrypted budget).tracker.capacity =
        budget + (a.tracker.capacity - a.tracker.used) ∧
      (a.next_state_decrypted budget).tracker.used = 0) ∧
    ((b.next_state_with_encrypted_txs budget).tracker.capacity =
        budget + (b.tracker.capacity - b.tracker.used) ∧
      (b.next_state_with_encrypted_txs budget).tracker.used = 0) ∧
    ((b.next_state_without_encrypted_txs budget).tracker.capacity =
        budget + (b.tracker.capacity - b.tracker.used) ∧
      (b.next_state_without_encrypted_txs budget).tracker.used = 0) ∧
    ((c.next_state_encrypted budget).tracker.capacity =
        budget + (c.tracker.capacity - c.tracker.used) ∧
      (c.next_state_encrypted budget).tracker.used = 0) :=
  ⟨⟨rfl, rfl⟩, ⟨rfl, rfl⟩, ⟨rfl, rfl⟩, ⟨rfl, rfl⟩⟩

/-- Claim C7: a phase-3 allocator in the without mode never admits any
transaction over its whole lifetime; after any sequence of try_alloc
calls, the next call still fails, whatever the candidate. The mode is a
type index of the allocator, and no operation changes it. -/
theorem without_encrypted_never_admits
    (a : BlockSpaceAllocator
      (Phase.BuildingEncryptedTxBatch Mode.WithoutEncryptedTxs))
    (l : List (List Nat)) (tx : List Nat) :
    ((BlockSpaceAllocator.run a l).try_alloc tx).1 =
      Except.error (AllocFailure.Rejected 0) := by
  rw [without_mode_try_alloc]

/-- Claim C8: for both the plain and the fused allocator, in every phase,
a try_alloc call either succeeds or fails with Rejected; no other failure
exists. -/
theorem only_failure_is_rejected {S : Phase} (a : BlockSpaceAllocator S)
    (f : FusedBlockSpaceAllocator S) (tx : List Nat) :
    ((a.try_alloc tx).1 = Except.ok () ∨
      ∃ n, (a.try_alloc tx).1 = Except.error (AllocFailure.Rejected n)) ∧
    ((f.try_alloc tx).1 = Except.ok () ∨
      ∃ n, (f.try_alloc tx).1 = Except.error (AllocFailure.Rejected n)) :=
  ⟨except_alloc_cases _, except_alloc_cases _⟩

/-- Claim C9: the fused allocator's transition delegates to the inner
allocator's transition and yields exactly its successor; the flag is
discarded, so the successor does not depend on it. -/
theorem fused_transition_passthrough {S : Phase} {N : Type}
    (step : BlockSpaceAllocator S → N) (a : BlockSpaceAllocator S)
    (b b' : Bool) :
    FusedBlockSpaceAllocator.next_state_impl step
        { alloc := a, ran_out_of_space := b } = step a ∧
    FusedBlockSpaceAllocator.next_state_impl step
        { alloc := a, ran_out_of_space := b } =
      FusedBlockSpaceAllocator.next_state_impl step
        { alloc := a, ran_out_of_space := b' } :=
  ⟨rfl, rfl⟩

/-- Claim C10: fusing any allocator starts with the flag false, so
has_run_out_of_space reports false and the first try_alloc call consults
the inner allocator: its result is the inner result and its new inner
state is the inner allocator's new state. -/
theorem fuse_starts_not_exhausted {S : Phase} (a : BlockSpaceAllocator S)
    (tx : List Nat) :
    a.fuse.has_run_out_of_space = false ∧
    (a.fuse.try_alloc tx).1 = (a.try_alloc tx).1 ∧
    ((a.fuse.try_alloc tx).2).alloc = (a.try_alloc tx).2 := by
  refine ⟨rfl, ?_, ?_⟩ <;>
    · rcases h : a.try_alloc tx with ⟨r, a'⟩
      rcases r with u | e
      · simp [BlockSpaceAllocator.fuse, FusedBlockSpaceAllocator.try_alloc, h]
      · rcases e with ⟨n⟩
        simp [BlockSpaceAllocator.fuse, FusedBlockSpaceAllocator.try_alloc, h]
